import Mathlib

/-!
Verification of the connection-probing scripts of the UsefulScripts repository.

The main embedding covers `scan_port` and the bulk-scan pipeline of
`pythonAutoSock.py`, together with the pairwise target construction of
`autoCurl.py`.  Blocking system and library calls (connect, getsockname,
getpeername, getservbyport, gethostbyaddr, getsockopt, recv, the TLS
handshake and certificate inspection) are modelled by an environment record
`ScanEnv` describing the outcome each call would produce; `scan_port` is
then a pure function of its arguments and the environment, mirroring the
control flow of the Python source line by line.  The sequence of blocking
socket operations, together with the timeout in effect at each, is recorded
as a list of `ScanEvent`s.

One source fact shapes the TLS part of the model: the TLS block of
`scan_port` is dead code.  Its first statement,
`ssl.wrap_socket(sock, server_hostname=ip, do_handshake_on_connect=False)`
at line 78, passes a `server_hostname` keyword that the module-level
`ssl.wrap_socket` never accepted in any Python version, so the call raises
`TypeError` before any handshake work, and the `except Exception: pass` at
lines 88-90 swallows it.  Consequently no real execution performs a TLS
handshake, sets the TLS socket timeout of line 79, or assigns any TLS
field; the trace of blocking operations therefore never contains a
handshake event.  The (unreachable) assignment paths of lines 79-87 are
still rendered on the result side, via `TlsOutcome`, so that the TLS-field
invariants can be stated about the block as written.
-/

/-- Python exceptions distinguished by the exception handlers of
`scan_port` (pythonAutoSock.py lines 91-99): `socket.timeout`,
`ConnectionRefusedError`, any other `OSError`-like exception carrying a
message, and `ValueError` (raised by `settimeout` on a negative value). -/
inductive PyExn where
  | timeoutExn : PyExn
  | refused : PyExn
  | oserror : String → PyExn
  | valueError : String → PyExn
deriving Repr, DecidableEq

/-- The banner text produced by the exception handlers of `scan_port`
(pythonAutoSock.py lines 91-99): `socket.timeout` gives
"Connection timed out", `ConnectionRefusedError` gives
"Connection refused", and every other exception is formatted generically. -/
def connMsg : PyExn → String
  | .timeoutExn => "Connection timed out"
  | .refused => "Connection refused"
  | .oserror m => "Error: " ++ m
  | .valueError m => "Error: " ++ m

/-- The result dictionary of `scan_port` (pythonAutoSock.py lines 21-39):
the seventeen fixed keys, with the Python sentinel `''` for an absent
string field rendered as `""` and absent numeric fields rendered as
`none`. -/
structure ScanResult where
  ip : String
  port : Nat
  status : Bool
  banner : String
  local_ip : String
  local_port : Option Nat
  peer_ip : String
  peer_port : Option Nat
  service : String
  latency_ms : Option Rat
  rdns : String
  sndbuf : Option Nat
  rcvbuf : Option Nat
  ttl : Option Nat
  tls_version : String
  tls_cipher : String
  cert_subject : String
deriving Repr, DecidableEq

/-- The initial result dictionary of `scan_port` (pythonAutoSock.py lines
21-39): every field other than `ip` and `port` absent, `status` false. -/
def initResult (ip : String) (port : Nat) : ScanResult :=
  { ip := ip, port := port, status := false, banner := "",
    local_ip := "", local_port := none, peer_ip := "", peer_port := none,
    service := "", latency_ms := none, rdns := "",
    sndbuf := none, rcvbuf := none, ttl := none,
    tls_version := "", tls_cipher := "", cert_subject := "" }

/-- Outcome of `socket.gethostbyaddr` (pythonAutoSock.py lines 58-61):
a name, a `socket.herror` (the only exception the source catches there),
or some other exception that escapes to the outer handler. -/
inductive RdnsOutcome where
  | okName : String → RdnsOutcome
  | herror : RdnsOutcome
  | otherErr : PyExn → RdnsOutcome
deriving Repr, DecidableEq

/-- Whether the reverse-DNS lookup raised an exception other than
`socket.herror`, which the handler at pythonAutoSock.py line 60 does not
catch. -/
def RdnsOutcome.isOtherErr : RdnsOutcome → Bool
  | .otherErr _ => true
  | _ => false

/-- Outcome of the three sequential `getsockopt` calls (pythonAutoSock.py
lines 63-68): the block may raise at any of the three calls, keeping the
values already assigned, or succeed entirely. -/
inductive SockoptOutcome where
  | fail0 : SockoptOutcome
  | fail1 : Nat → SockoptOutcome
  | fail2 : Nat → Nat → SockoptOutcome
  | okAll : Nat → Nat → Nat → SockoptOutcome
deriving Repr, DecidableEq

instance {ε α : Type} [DecidableEq ε] [DecidableEq α] : DecidableEq (Except ε α) := fun x y =>
  match x, y with
  | .ok a, .ok b =>
    if h : a = b then isTrue (by rw [h]) else isFalse (by intro hh; cases hh; exact h rfl)
  | .error a, .error b =>
    if h : a = b then isTrue (by rw [h]) else isFalse (by intro hh; cases hh; exact h rfl)
  | .ok _, .error _ => isFalse (by intro hh; cases hh)
  | .error _, .ok _ => isFalse (by intro hh; cases hh)

/-- Outcome of the TLS block (pythonAutoSock.py lines 77-90) as written.
On the real program the block always takes the `fail` outcome: its first
statement, `ssl.wrap_socket(sock, server_hostname=ip, ...)` at line 78,
raises `TypeError` (the module-level `ssl.wrap_socket` has no
`server_hostname` parameter in any Python version), the handler swallows
it, and lines 79-87 are dead code.  `fail` covers any exception caught
and ignored by the block's handler — in particular that `TypeError`.
`okTls` renders the dead completion path of lines 81-87 — the negotiated
version string, the cipher tuple (`none` models a falsy `cipher()`
result, which line 83 maps to `''`), and the certificate-subject
extraction (`error` models an exception while fetching or indexing the
certificate, aborting the block after version and cipher were assigned) —
so the TLS-field invariants can be stated about it; no reachable
execution produces it. -/
inductive TlsOutcome where
  | fail : TlsOutcome
  | okTls : String → Option String → Except Unit String → TlsOutcome
deriving Repr, DecidableEq

/-- Environment describing the outcome of every system and library call
`scan_port` performs on one target. -/
structure ScanEnv where
  connect : Option PyExn
  latencyMs : Rat
  sockname : Except PyExn (String × Nat)
  peername : Except PyExn (String × Nat)
  servOut : Except Unit String
  rdnsOut : RdnsOutcome
  sockopts : SockoptOutcome
  recvOut : Except Unit String
  tlsOut : TlsOutcome
deriving Repr, DecidableEq

/-- Blocking socket operations performed by `scan_port`, each recording
the timeout (in seconds) in effect when it ran.  Two constructors never
occur in any trace and are included only so that their absence is
expressible: `peekE` (a zero-copy `MSG_PEEK` read — the source has none)
and `handshakeE` (a TLS handshake — the TLS block dies with `TypeError`
at the `ssl.wrap_socket` call of line 78 before `do_handshake` at line
80 can run). -/
inductive ScanEvent where
  | setTimeoutE : Rat → ScanEvent
  | connectE : Rat → ScanEvent
  | recvE : Rat → ScanEvent
  | peekE : Rat → ScanEvent
  | handshakeE : Rat → ScanEvent
deriving Repr, DecidableEq

/-- The service-lookup block (pythonAutoSock.py lines 53-56): on
`OSError` the field is set to `''`. -/
def stepService : Except Unit String → ScanResult → ScanResult
  | .ok s, r => { r with service := s }
  | .error _, r => { r with service := "" }

/-- The reverse-DNS block (pythonAutoSock.py lines 58-61) in the two
cases its handler catches: a name, or `socket.herror` giving `''`. -/
def stepRdnsCaught : RdnsOutcome → ScanResult → ScanResult
  | .okName n, r => { r with rdns := n }
  | _, r => { r with rdns := "" }

/-- The socket-options block (pythonAutoSock.py lines 63-68): the three
assignments run in order and an exception keeps the fields already
assigned (`except Exception: pass`). -/
def stepSockopts : SockoptOutcome → ScanResult → ScanResult
  | .fail0, r => r
  | .fail1 s, r => { r with sndbuf := some s }
  | .fail2 s rc, r => { r with sndbuf := some s, rcvbuf := some rc }
  | .okAll s rc tl, r => { r with sndbuf := some s, rcvbuf := some rc, ttl := some tl }

/-- The banner-grab block (pythonAutoSock.py lines 71-75): a successful
`recv` stores the decoded, stripped text; any exception stores `''`. -/
def stepBanner : Except Unit String → ScanResult → ScanResult
  | .ok b, r => { r with banner := b }
  | .error _, r => { r with banner := "" }

/-- The TLS block (pythonAutoSock.py lines 77-90): on handshake failure
nothing is assigned; on success the version is assigned, then the cipher
(`cipher[0] if cipher else ''`), then the certificate subject — and an
exception during the certificate step keeps the fields already
assigned. -/
def stepTls : TlsOutcome → ScanResult → ScanResult
  | .fail, r => r
  | .okTls v c cs, r =>
    let r1 := { r with tls_version := v, tls_cipher := c.getD "" }
    match cs with
    | .ok subj => { r1 with cert_subject := subj }
    | .error _ => r1

/-- Result of one `scan_port` run: the returned dictionary (or the
propagated exception) together with the trace of blocking socket
operations. -/
structure ScanOut where
  res : Except PyExn ScanResult
  events : List ScanEvent
deriving Repr, DecidableEq

/-- Embedding of `scan_port` (pythonAutoSock.py lines 17-102).
`sock.settimeout(timeout)` at line 41 runs before the `try` block and
raises `ValueError` for a negative timeout, which propagates out of the
function; otherwise the connect attempt, the metadata harvesting blocks,
the banner grab (after `sock.settimeout(1.0)` at line 70) and the TLS
block run in source order, and any exception escaping to the outer
handlers at lines 91-99 sets `status` to false and stores the formatted
message in `banner`, keeping all fields already assigned.  The trace
ends with the consuming banner `recv`: the TLS block performs no
blocking socket operation, because `ssl.wrap_socket` at line 78 raises
`TypeError` (no `server_hostname` parameter exists) before the
`settimeout`/`do_handshake` calls of lines 79-80 — its result-side
assignments under `env.tlsOut` render the block as written, while every
real run takes the `fail` outcome there. -/
def scanRun (ip : String) (port : Nat) (t : Rat) (env : ScanEnv) : ScanOut :=
  if t < 0 then
    { res := .error (.valueError "Timeout value out of range"), events := [] }
  else
    let r0 := initResult ip port
    let evs := [ScanEvent.setTimeoutE t, ScanEvent.connectE t]
    match env.connect with
    | some e => { res := .ok { r0 with status := false, banner := connMsg e }, events := evs }
    | none =>
      let r1 := { r0 with status := true, latency_ms := some env.latencyMs }
      match env.sockname with
      | .error e => { res := .ok { r1 with status := false, banner := connMsg e }, events := evs }
      | .ok lp =>
        let r2 := { r1 with local_ip := lp.1, local_port := some lp.2 }
        match env.peername with
        | .error e => { res := .ok { r2 with status := false, banner := connMsg e }, events := evs }
        | .ok pp =>
          let r3 := { r2 with peer_ip := pp.1, peer_port := some pp.2 }
          let r4 := stepService env.servOut r3
          match env.rdnsOut with
          | .otherErr e => { res := .ok { r4 with status := false, banner := connMsg e }, events := evs }
          | rd =>
            let r5 := stepRdnsCaught rd r4
            let r6 := stepSockopts env.sockopts r5
            let evs2 := evs ++ [ScanEvent.setTimeoutE 1, ScanEvent.recvE 1]
            let r7 := stepBanner env.recvOut r6
            let r8 := stepTls env.tlsOut r7
            { res := .ok r8, events := evs2 }

/-- The value `scan_port` returns (or the exception it propagates). -/
def scan_port (ip : String) (port : Nat) (t : Rat) (env : ScanEnv) : Except PyExn ScanResult :=
  (scanRun ip port t env).res

/-- The trace of blocking socket operations one `scan_port` run performs. -/
def scanEvents (ip : String) (port : Nat) (t : Rat) (env : ScanEnv) : List ScanEvent :=
  (scanRun ip port t env).events

/-- A fully successful probe environment: the connection, every metadata
lookup, the banner read and the TLS handshake all succeed. -/
def envAllOk : ScanEnv :=
  { connect := none
    latencyMs := 5
    sockname := Except.ok ("192.168.0.2", 54321)
    peername := Except.ok ("93.184.216.34", 443)
    servOut := Except.ok "https"
    rdnsOut := RdnsOutcome.okName "example.com"
    sockopts := SockoptOutcome.okAll 65536 131072 64
    recvOut := Except.ok "220 service ready"
    tlsOut := TlsOutcome.okTls "TLSv1.3" (some "TLS_AES_256_GCM_SHA384") (Except.ok "example.com") }

/-- Environment of a target that refuses the TCP connection. -/
def envRefused : ScanEnv :=
  { envAllOk with connect := some PyExn.refused }

/-- Environment of a target behind an unreachable network: `connect`
raises `OSError` with `EHOSTUNREACH`, which is neither `socket.timeout`
nor `ConnectionRefusedError`. -/
def envUnreach : ScanEnv :=
  { envAllOk with connect := some (PyExn.oserror "[Errno 113] No route to host") }

/-- Environment where the connection succeeds but `getpeername` raises
(for example after the peer resets the connection immediately). -/
def envPeerFail : ScanEnv :=
  { envAllOk with
      peername := Except.error (PyExn.oserror "[Errno 107] Transport endpoint is not connected") }

/-- Environment where the connection succeeds but every best-effort
harvesting step fails in the way its own handler catches. -/
def envHarvestFail : ScanEnv :=
  { envAllOk with
      servOut := Except.error ()
      rdnsOut := RdnsOutcome.herror
      sockopts := SockoptOutcome.fail0
      recvOut := Except.error ()
      tlsOut := TlsOutcome.fail }

example :
    scan_port "127.0.0.1" 9 1 envRefused =
    Except.ok { (initResult "127.0.0.1" 9) with status := false, banner := "Connection refused" } := by
  decide

/-- The `service` field as a function of the outcome of its own lookup
(pythonAutoSock.py lines 53-56). -/
def servField : Except Unit String → String
  | .ok s => s
  | .error _ => ""

/-- The `rdns` field as a function of the outcome of its own lookup
(pythonAutoSock.py lines 58-61). -/
def rdnsField : RdnsOutcome → String
  | .okName n => n
  | _ => ""

/-- The `sndbuf` field as a function of the socket-options outcome
(pythonAutoSock.py lines 63-68). -/
def sndField : SockoptOutcome → Option Nat
  | .fail0 => none
  | .fail1 s => some s
  | .fail2 s _ => some s
  | .okAll s _ _ => some s

/-- The `rcvbuf` field as a function of the socket-options outcome. -/
def rcvField : SockoptOutcome → Option Nat
  | .fail0 => none
  | .fail1 _ => none
  | .fail2 _ rc => some rc
  | .okAll _ rc _ => some rc

/-- The `ttl` field as a function of the socket-options outcome. -/
def ttlField : SockoptOutcome → Option Nat
  | .okAll _ _ tl => some tl
  | _ => none

/-- The `banner` field as a function of the banner-grab outcome
(pythonAutoSock.py lines 71-75). -/
def bannerField : Except Unit String → String
  | .ok b => b
  | .error _ => ""

/-- The `tls_version` field as a function of the TLS outcome
(pythonAutoSock.py lines 77-90). -/
def tlsVerField : TlsOutcome → String
  | .fail => ""
  | .okTls v _ _ => v

/-- The `tls_cipher` field as a function of the TLS outcome. -/
def tlsCipherField : TlsOutcome → String
  | .fail => ""
  | .okTls _ c _ => c.getD ""

/-- The `cert_subject` field as a function of the TLS outcome. -/
def certField : TlsOutcome → String
  | .fail => ""
  | .okTls _ _ (.ok s) => s
  | .okTls _ _ (.error _) => ""

/-- The result a run returns, defaulting to the initial dictionary when
the run propagated an exception. -/
def scanResultD (ip : String) (port : Nat) (t : Rat) (env : ScanEnv) : ScanResult :=
  match scan_port ip port t env with
  | .ok r => r
  | .error _ => initResult ip port

/-- Whether a run returned normally rather than propagating an exception. -/
def isOkE : Except PyExn ScanResult → Bool
  | .ok _ => true
  | .error _ => false

/-- Whether an event is a consuming `recv` on the probe socket. -/
def isRecvE : ScanEvent → Bool
  | .recvE _ => true
  | _ => false

/-- Whether an event is a TLS handshake attempt. -/
def isHandshakeE : ScanEvent → Bool
  | .handshakeE _ => true
  | _ => false

/-- Whether an event is a zero-copy peek. -/
def isPeekE : ScanEvent → Bool
  | .peekE _ => true
  | _ => false

/-- The timeouts used by the connect attempts in a trace. -/
def connectTsUsed (evs : List ScanEvent) : List Rat :=
  evs.filterMap fun e => match e with
    | .connectE x => some x
    | _ => none

/-- The timeouts used by the consuming reads in a trace. -/
def recvTsUsed (evs : List ScanEvent) : List Rat :=
  evs.filterMap fun e => match e with
    | .recvE x => some x
    | _ => none

/-- The timeouts used by the TLS handshake attempts in a trace. -/
def handshakeTsUsed (evs : List ScanEvent) : List Rat :=
  evs.filterMap fun e => match e with
    | .handshakeE x => some x
    | _ => none

/-- The bulk-scan target list (pythonAutoSock.py line 143): the full
cross product `[(ip, port) for ip in ips for port in ports]`. -/
def crossTargets (ips : List String) (ports : List Nat) : List (String × Nat) :=
  ips.flatMap fun ip => ports.map fun p => (ip, p)

/-- The outcomes of the individual bulk-scan workers (pythonAutoSock.py
lines 152-154): one `scan_port` invocation per cross-product target, in
submission order.  This lists what each submitted worker produces; how
the writer loop collects those outcomes — including the abort when
`future.result()` re-raises a worker's exception — is modelled by
`runBulkBatch` below. -/
def runBulk (ips : List String) (ports : List Nat) (t : Rat)
    (envOf : String → Nat → ScanEnv) : List (Except PyExn ScanResult) :=
  (crossTargets ips ports).map fun tg => scan_port tg.1 tg.2 t (envOf tg.1 tg.2)

/-- The writer loop of the bulk scan (pythonAutoSock.py lines 155-159)
over a list of targets: each completed worker contributes one row, but
`future.result()` at line 157 re-raises a worker's exception in the main
thread, aborting the whole batch — no further rows are written and the
output is left incomplete.  Modelled in submission order: the batch
yields its row list only if every worker returned normally; the first
worker exception aborts it. -/
def collectRows (t : Rat) (envOf : String → Nat → ScanEnv) :
    List (String × Nat) → Except PyExn (List ScanResult)
  | [] => .ok []
  | tg :: rest =>
    match scan_port tg.1 tg.2 t (envOf tg.1 tg.2) with
    | .error e => .error e
    | .ok r =>
      match collectRows t envOf rest with
      | .error e => .error e
      | .ok rs => .ok (r :: rs)

/-- The full bulk-scan batch (pythonAutoSock.py lines 143-159): the
cross-product targets fed through the worker pool and the writer loop,
completing with one row per target unless a worker exception aborts
the batch. -/
def runBulkBatch (ips : List String) (ports : List Nat) (t : Rat)
    (envOf : String → Nat → ScanEnv) : Except PyExn (List ScanResult) :=
  collectRows t envOf (crossTargets ips ports)

/-- Configuration failures distinguished by the spec's §4.1/§7 taxonomy. -/
inductive ConfigError where
  | emptyInput : ConfigError
  | lengthMismatch : ConfigError
deriving Repr, DecidableEq

/-- Modelled from the spec: `buildCrossProduct` per §4.1, which demands
failure with `ConfigError` when either input list is empty (this check is
absent from pythonAutoSock.py, so the spec's words are rendered here for
comparison with `crossTargets`/`runBulk`). -/
def buildCrossProductSpec (hosts : List String) (ports : List Nat) :
    Except ConfigError (List (String × Nat)) :=
  if hosts.isEmpty || ports.isEmpty then .error .emptyInput
  else .ok (crossTargets hosts ports)

/-- The HTTP methods probed by autoCurl.py (line 6). -/
def METHODS : List String :=
  ["OPTIONS", "GET", "HEAD", "POST", "PUT", "DELETE", "PATCH"]

/-- The protocols probed by autoCurl.py (line 7). -/
def PROTOCOLS : List String := ["http", "https"]

/-- The pairwise target construction of autoCurl.py `main` (lines 38-44):
mismatched list lengths abort with an error before anything else runs;
otherwise the targets are `zip(ips, ports)`, one per index. -/
def buildPairwise (ips ports : List String) : Except ConfigError (List (String × String)) :=
  if ips.length ≠ ports.length then .error .lengthMismatch
  else .ok (ips.zip ports)

/-- The probe submissions of autoCurl.py `main` (lines 46-53): when the
length check passes, one `(ip, port, proto, method)` submission per zip
pair, protocol and method; when it fails, none — the process exits before
any network I/O. -/
def curlSubmissions (ips ports : List String) :
    Except ConfigError (List (String × String × String × String)) :=
  match buildPairwise ips ports with
  | .error e => .error e
  | .ok pairs =>
    .ok (pairs.flatMap fun pr => PROTOCOLS.flatMap fun proto =>
      METHODS.map fun m => (pr.1, pr.2, proto, m))

/-- A run whose connection, endpoint retrievals and reverse-DNS dispatch
all avoid the outer exception handlers returns the fully harvested
dictionary: `status` stays true and every remaining field is a function
of the outcome of its own sub-step alone. -/
theorem scan_port_connected (ip : String) (port : Nat) (t : Rat) (env : ScanEnv)
    (lp pp : String × Nat) (ht : ¬ t < 0) (hc : env.connect = none)
    (hs : env.sockname = .ok lp) (hp : env.peername = .ok pp)
    (hr : env.rdnsOut.isOtherErr = false) :
    scan_port ip port t env = .ok
      { ip := ip, port := port, status := true,
        banner := bannerField env.recvOut,
        local_ip := lp.1, local_port := some lp.2,
        peer_ip := pp.1, peer_port := some pp.2,
        service := servField env.servOut,
        latency_ms := some env.latencyMs,
        rdns := rdnsField env.rdnsOut,
        sndbuf := sndField env.sockopts,
        rcvbuf := rcvField env.sockopts,
        ttl := ttlField env.sockopts,
        tls_version := tlsVerField env.tlsOut,
        tls_cipher := tlsCipherField env.tlsOut,
        cert_subject := certField env.tlsOut } := by
  obtain ⟨c0, lat, sn, pn, sv, rd, so, rc, tl⟩ := env
  simp only at hc hs hp hr
  subst hc hs hp
  simp only [scan_port, scanRun, if_neg ht]
  cases rd with
  | otherErr e => simp [RdnsOutcome.isOtherErr] at hr
  | okName n =>
    cases sv <;> cases so <;> cases rc <;> cases tl <;>
      first
        | rfl
        | (rename_i cs; cases cs <;> rfl)
  | herror =>
    cases sv <;> cases so <;> cases rc <;> cases tl <;>
      first
        | rfl
        | (rename_i cs; cases cs <;> rfl)

/-- For every non-negative timeout, `scan_port` returns normally — on
every branch of its control flow — and the returned dictionary keeps the
input `ip` and `port`. -/
theorem scan_port_ok (ip : String) (port : Nat) (t : Rat) (env : ScanEnv)
    (ht : ¬ t < 0) :
    scan_port ip port t env = Except.ok (scanResultD ip port t env) ∧
    (scanResultD ip port t env).ip = ip ∧
    (scanResultD ip port t env).port = port := by
  obtain ⟨c0, lat, sn, pn, sv, rd, so, rc, tl⟩ := env
  cases c0 with
  | some e =>
    unfold scanResultD scan_port scanRun
    rw [if_neg ht]
    exact ⟨rfl, rfl, rfl⟩
  | none =>
    cases sn with
    | error e =>
      unfold scanResultD scan_port scanRun
      rw [if_neg ht]
      exact ⟨rfl, rfl, rfl⟩
    | ok lp =>
      cases pn with
      | error e =>
        unfold scanResultD scan_port scanRun
        rw [if_neg ht]
        exact ⟨rfl, rfl, rfl⟩
      | ok pp =>
        cases rd with
        | otherErr e =>
          unfold scanResultD scan_port scanRun
          rw [if_neg ht]
          cases sv <;> exact ⟨rfl, rfl, rfl⟩
        | okName n =>
          have h := scan_port_connected ip port t
            ⟨none, lat, Except.ok lp, Except.ok pp, sv, RdnsOutcome.okName n, so, rc, tl⟩
            lp pp ht rfl rfl rfl rfl
          refine ⟨?_, ?_, ?_⟩ <;> simp [scanResultD, h]
        | herror =>
          have h := scan_port_connected ip port t
            ⟨none, lat, Except.ok lp, Except.ok pp, sv, RdnsOutcome.herror, so, rc, tl⟩
            lp pp ht rfl rfl rfl rfl
          refine ⟨?_, ?_, ?_⟩ <;> simp [scanResultD, h]

/-- A run whose connection, endpoint retrievals and reverse-DNS dispatch
all avoid the outer exception handlers performs exactly these blocking
socket operations, in source order: set the configured timeout, connect,
set the fixed one-second banner timeout, then the consuming `recv`.
Nothing follows the `recv`: the TLS block raises `TypeError` at the
`ssl.wrap_socket` call before any handshake operation. -/
theorem scanEvents_connected (ip : String) (port : Nat) (t : Rat) (env : ScanEnv)
    (lp pp : String × Nat) (ht : ¬ t < 0) (hc : env.connect = none)
    (hs : env.sockname = .ok lp) (hp : env.peername = .ok pp)
    (hr : env.rdnsOut.isOtherErr = false) :
    scanEvents ip port t env =
      [ScanEvent.setTimeoutE t, ScanEvent.connectE t,
       ScanEvent.setTimeoutE 1, ScanEvent.recvE 1] := by
  obtain ⟨c0, lat, sn, pn, sv, rd, so, rc, tl⟩ := env
  simp only at hc hs hp hr
  subst hc hs hp
  simp only [scanEvents, scanRun, if_neg ht]
  cases rd with
  | otherErr e => simp [RdnsOutcome.isOtherErr] at hr
  | okName n => rfl
  | herror => rfl

/-- C1: the claim is false on the source.  In a fully successful probe
the trace contains a consuming banner `recv` (pythonAutoSock.py line 72)
but no TLS handshake attempt at all — the TLS upgrade is never tried
first or otherwise, since `ssl.wrap_socket` at line 78 raises
`TypeError` before `do_handshake` can run — and no zero-copy peek ever
occurs. -/
theorem c1_counterexample :
    (scanEvents "127.0.0.1" 443 3 envAllOk).any isRecvE = true ∧
    (scanEvents "127.0.0.1" 443 3 envAllOk).any isHandshakeE = false ∧
    (scanEvents "127.0.0.1" 443 3 envAllOk).any isPeekE = false := by
  decide

/-- C1 (amended): in every execution that reaches the Connected state and
stays clear of the outer exception handlers, the probe performs a
consuming banner read, never attempts a TLS handshake on the socket (the
TLS upgrade at line 78 is dead code that raises `TypeError`, swallowed
by its handler), and never performs a zero-copy peek. -/
theorem c1_amended (ip : String) (port : Nat) (t : Rat) (env : ScanEnv)
    (lp pp : String × Nat) (ht : ¬ t < 0) (hc : env.connect = none)
    (hs : env.sockname = .ok lp) (hp : env.peername = .ok pp)
    (hr : env.rdnsOut.isOtherErr = false) :
    (scanEvents ip port t env).any isRecvE = true ∧
    (scanEvents ip port t env).any isHandshakeE = false ∧
    (scanEvents ip port t env).any isPeekE = false := by
  rw [scanEvents_connected ip port t env lp pp ht hc hs hp hr]
  refine ⟨?_, ?_, ?_⟩ <;> rfl

/-- C1 witness: the amended statement at a concrete connected run. -/
theorem c1_witness :
    (scanEvents "10.0.0.7" 25 2 envAllOk).any isRecvE = true ∧
    (scanEvents "10.0.0.7" 25 2 envAllOk).any isHandshakeE = false ∧
    (scanEvents "10.0.0.7" 25 2 envAllOk).any isPeekE = false :=
  c1_amended "10.0.0.7" 25 2 envAllOk ("192.168.0.2", 54321) ("93.184.216.34", 443)
    (by decide) rfl rfl rfl rfl

/-- C2: the claim is false on the source.  A refused connection yields
`status = false` with `latency_ms` and the TLS fields absent, but the
`banner` field is not absent: it carries the text "Connection refused"
(pythonAutoSock.py lines 94-96), and no separate failure-reason field
exists. -/
theorem c2_counterexample :
    scan_port "127.0.0.1" 9 1 envRefused =
      Except.ok { (initResult "127.0.0.1" 9) with
        status := false, banner := "Connection refused" } ∧
    "Connection refused" ≠ "" := by
  decide

/-- C2 (amended): when the connection attempt itself fails, the result
has `reachable` false, `latencyMs`, TLS info and every harvested field
absent, and the failure reason is carried in the `banner` field as the
handler's message text. -/
theorem c2_amended (ip : String) (port : Nat) (t : Rat) (env : ScanEnv) (e : PyExn)
    (ht : ¬ t < 0) (hc : env.connect = some e) :
    scan_port ip port t env =
      Except.ok { (initResult ip port) with status := false, banner := connMsg e } ∧
    (scanResultD ip port t env).latency_ms = none ∧
    (scanResultD ip port t env).tls_version = "" ∧
    (scanResultD ip port t env).tls_cipher = "" ∧
    (scanResultD ip port t env).cert_subject = "" ∧
    (scanResultD ip port t env).banner = connMsg e := by
  obtain ⟨c0, lat, sn, pn, sv, rd, so, rc, tl⟩ := env
  simp only at hc
  subst hc
  unfold scanResultD scan_port scanRun
  rw [if_neg ht]
  exact ⟨rfl, rfl, rfl, rfl, rfl, rfl⟩

/-- C2 witness: the amended statement at a concrete refused connection. -/
theorem c2_witness :
    scan_port "192.0.2.1" 9 2 envRefused =
      Except.ok { (initResult "192.0.2.1" 9) with
        status := false, banner := connMsg PyExn.refused } ∧
    (scanResultD "192.0.2.1" 9 2 envRefused).latency_ms = none ∧
    (scanResultD "192.0.2.1" 9 2 envRefused).tls_version = "" ∧
    (scanResultD "192.0.2.1" 9 2 envRefused).tls_cipher = "" ∧
    (scanResultD "192.0.2.1" 9 2 envRefused).cert_subject = "" ∧
    (scanResultD "192.0.2.1" 9 2 envRefused).banner = connMsg PyExn.refused :=
  c2_amended "192.0.2.1" 9 2 envRefused PyExn.refused (by decide) rfl

/-- C3: the claim is false on the source.  Peer-endpoint retrieval is not
individually wrapped (pythonAutoSock.py lines 48-51): when `getpeername`
raises after a successful connection, the outer handler downgrades
`status` from true to false and the remaining sub-steps are skipped —
the service lookup would have succeeded (`envPeerFail.servOut` is
`Except.ok "https"`) yet the `service` field is left absent. -/
theorem c3_counterexample :
    scan_port "10.0.0.8" 80 3 envPeerFail =
      Except.ok
      { ip := "10.0.0.8", port := 80, status := false,
        banner := "Error: [Errno 107] Transport endpoint is not connected",
        local_ip := "192.168.0.2", local_port := some 54321,
        peer_ip := "", peer_port := none, service := "",
        latency_ms := some 5, rdns := "", sndbuf := none, rcvbuf := none,
        ttl := none, tls_version := "", tls_cipher := "", cert_subject := "" } ∧
    envPeerFail.connect = none ∧
    envPeerFail.servOut = Except.ok "https" := by
  decide

/-- C3 (amended): the service-name lookup, the reverse-DNS lookup (for
the host-lookup errors its handler catches), the socket-option retrieval,
the banner grab and the TLS block are each individually wrapped: their
failure sets only their own fields to absent, `reachable` stays true and
the other sub-steps still run; but local/peer endpoint retrieval is not
wrapped, and its failure downgrades the probe (see the counterexample). -/
theorem c3_amended (ip : String) (port : Nat) (t : Rat) (env : ScanEnv)
    (lp pp : String × Nat) (ht : ¬ t < 0) (hc : env.connect = none)
    (hs : env.sockname = .ok lp) (hp : env.peername = .ok pp)
    (hr : env.rdnsOut.isOtherErr = false) :
    (scanResultD ip port t env).status = true ∧
    (scanResultD ip port t env).service = servField env.servOut ∧
    (scanResultD ip port t env).rdns = rdnsField env.rdnsOut ∧
    (scanResultD ip port t env).sndbuf = sndField env.sockopts ∧
    (scanResultD ip port t env).rcvbuf = rcvField env.sockopts ∧
    (scanResultD ip port t env).ttl = ttlField env.sockopts ∧
    (scanResultD ip port t env).banner = bannerField env.recvOut ∧
    (scanResultD ip port t env).local_ip = lp.1 ∧
    (scanResultD ip port t env).peer_ip = pp.1 ∧
    (scanResultD ip port t env).latency_ms = some env.latencyMs := by
  have h := scan_port_connected ip port t env lp pp ht hc hs hp hr
  simp [scanResultD, h]

/-- C3 witness: the amended statement at a concrete run in which every
best-effort harvesting sub-step fails in the way its handler catches —
`reachable` stays true and exactly the failing sub-steps' fields are
absent. -/
theorem c3_witness :
    (scanResultD "198.51.100.7" 80 3 envHarvestFail).status = true ∧
    (scanResultD "198.51.100.7" 80 3 envHarvestFail).service = servField envHarvestFail.servOut ∧
    (scanResultD "198.51.100.7" 80 3 envHarvestFail).rdns = rdnsField envHarvestFail.rdnsOut ∧
    (scanResultD "198.51.100.7" 80 3 envHarvestFail).sndbuf = sndField envHarvestFail.sockopts ∧
    (scanResultD "198.51.100.7" 80 3 envHarvestFail).rcvbuf = rcvField envHarvestFail.sockopts ∧
    (scanResultD "198.51.100.7" 80 3 envHarvestFail).ttl = ttlField envHarvestFail.sockopts ∧
    (scanResultD "198.51.100.7" 80 3 envHarvestFail).banner = bannerField envHarvestFail.recvOut ∧
    (scanResultD "198.51.100.7" 80 3 envHarvestFail).local_ip = "192.168.0.2" ∧
    (scanResultD "198.51.100.7" 80 3 envHarvestFail).peer_ip = "93.184.216.34" ∧
    (scanResultD "198.51.100.7" 80 3 envHarvestFail).latency_ms = some envHarvestFail.latencyMs :=
  c3_amended "198.51.100.7" 80 3 envHarvestFail ("192.168.0.2", 54321) ("93.184.216.34", 443)
    (by decide) rfl rfl rfl rfl

/-- Indexing a zipped list: element `i` pairs element `i` of each input. -/
theorem zipGetEq {α β : Type} (as : List α) (bs : List β) (i : Nat) :
    (as.zip bs)[i]? = as[i]?.bind fun a => bs[i]?.map fun b => (a, b) := by
  induction as generalizing bs i with
  | nil => simp
  | cons a as ih =>
    cases bs with
    | nil => simp
    | cons b bs =>
      cases i with
      | zero => simp [List.zip_cons_cons]
      | succ n => simp [List.zip_cons_cons, ih]

/-- The cross-product target list has exactly `len(ips) * len(ports)`
entries. -/
theorem crossTargets_length (ips : List String) (ports : List Nat) :
    (crossTargets ips ports).length = ips.length * ports.length := by
  induction ips with
  | nil => simp [crossTargets]
  | cons a l ih =>
    simp only [crossTargets, List.flatMap_cons, List.length_append, List.length_map,
      List.length_cons, Nat.succ_mul]
    simp only [crossTargets] at ih
    rw [ih, Nat.add_comm]

/-- When every worker of a target list returns normally (any
non-negative timeout), the writer loop collects exactly one row per
target, in order. -/
theorem collectRows_ok (t : Rat) (envOf : String → Nat → ScanEnv)
    (l : List (String × Nat)) (ht : ¬ t < 0) :
    collectRows t envOf l =
      Except.ok (l.map fun tg => scanResultD tg.1 tg.2 t (envOf tg.1 tg.2)) := by
  induction l with
  | nil => rfl
  | cons a rest ih =>
    have h := (scan_port_ok a.1 a.2 t (envOf a.1 a.2) ht).1
    simp [collectRows, h, ih]

/-- C4: the claim is false on the source.  A worker exception is not an
OutputError, yet it prevents the batch from emitting one result per
target: with a single valid target and a negative configured timeout
(which the CLI accepts), the worker propagates `ValueError`,
`future.result()` re-raises it in the writer loop, and the batch aborts
with zero rows instead of completing with exactly one. -/
theorem c4_counterexample :
    crossTargets ["192.0.2.10"] [80] = [("192.0.2.10", 80)] ∧
    runBulkBatch ["192.0.2.10"] [80] (-1) (fun _ _ => envAllOk) =
      Except.error (PyExn.valueError "Timeout value out of range") := by
  decide

/-- C4 (amended): for every valid TargetSet and every non-negative
configured timeout — under which no worker can raise — the batch
completes with exactly one ProbeResult per cross-product target, row `i`
being the result of target `i`; a worker exception (possible only with a
negative timeout) aborts the batch instead of being recorded. -/
theorem c4_amended (ips : List String) (ports : List Nat) (t : Rat)
    (envOf : String → Nat → ScanEnv) (ht : ¬ t < 0) :
    runBulkBatch ips ports t envOf =
      Except.ok ((crossTargets ips ports).map fun tg =>
        scanResultD tg.1 tg.2 t (envOf tg.1 tg.2)) ∧
    ((crossTargets ips ports).map fun tg =>
        scanResultD tg.1 tg.2 t (envOf tg.1 tg.2)).length =
      (crossTargets ips ports).length := by
  exact ⟨collectRows_ok t envOf (crossTargets ips ports) ht, List.length_map _ _⟩

/-- C4 witness: the amended statement at a concrete one-target batch
with a non-negative timeout. -/
theorem c4_witness :
    runBulkBatch ["198.51.100.1"] [80] 3 (fun _ _ => envAllOk) =
      Except.ok ((crossTargets ["198.51.100.1"] [80]).map fun tg =>
        scanResultD tg.1 tg.2 3 envAllOk) ∧
    ((crossTargets ["198.51.100.1"] [80]).map fun tg =>
        scanResultD tg.1 tg.2 3 envAllOk).length =
      (crossTargets ["198.51.100.1"] [80]).length :=
  c4_amended ["198.51.100.1"] [80] 3 (fun _ _ => envAllOk) (by decide)

/-- C5: the claim is false on the source.  With an empty host list the
spec's `buildCrossProduct` demands a `ConfigError`, but the bulk pipeline
of pythonAutoSock.py performs no emptiness check: it builds an empty
target list, probes nothing and completes normally with zero result
rows. -/
theorem c5_counterexample :
    buildCrossProductSpec [] [80] = Except.error ConfigError.emptyInput ∧
    crossTargets [] [80] = [] ∧
    runBulk [] [80] 3 (fun _ _ => envAllOk) = [] := by
  exact ⟨rfl, rfl, rfl⟩

/-- C5 (amended): `buildCrossProduct` returns exactly
`len(hosts) * len(ports)` targets with no length constraint between the
lists; an empty input list is not rejected — it yields an empty target
set and the batch completes normally with zero results instead of
failing with `ConfigError`. -/
theorem c5_amended (ips : List String) (ports : List Nat) (t : Rat)
    (envOf : String → Nat → ScanEnv) :
    (crossTargets ips ports).length = ips.length * ports.length ∧
    ((ips = [] ∨ ports = []) → runBulk ips ports t envOf = []) := by
  refine ⟨crossTargets_length ips ports, fun h => ?_⟩
  have hlen : (runBulk ips ports t envOf).length = 0 := by
    rw [runBulk, List.length_map, crossTargets_length]
    rcases h with h | h <;> simp [h]
  exact List.eq_nil_of_length_eq_zero hlen

/-- C5 witness: the amended statement at an empty host list. -/
theorem c5_witness :
    (crossTargets [] [80]).length = ([] : List String).length * [80].length ∧
    runBulk [] [80] 3 (fun _ _ => envAllOk) = [] :=
  ⟨(c5_amended [] [80] 3 (fun _ _ => envAllOk)).1,
   (c5_amended [] [80] 3 (fun _ _ => envAllOk)).2 (Or.inl rfl)⟩

/-- C6: confirmed.  In autoCurl.py, mismatched list lengths abort with an
error before any probe is submitted (no network I/O), and equal lengths
yield exactly the zip pairing: one target per index, `hosts[i]` with
`ports[i]`. -/
theorem c6_confirmed (ips ports : List String) :
    (ips.length ≠ ports.length →
      buildPairwise ips ports = Except.error ConfigError.lengthMismatch ∧
      curlSubmissions ips ports = Except.error ConfigError.lengthMismatch) ∧
    (ips.length = ports.length →
      buildPairwise ips ports = Except.ok (ips.zip ports) ∧
      (ips.zip ports).length = ips.length ∧
      ∀ i : Nat, (ips.zip ports)[i]? =
        ips[i]?.bind fun a => ports[i]?.map fun b => (a, b)) := by
  constructor
  · intro hne
    have hb : buildPairwise ips ports = Except.error ConfigError.lengthMismatch := by
      simp [buildPairwise, hne]
    exact ⟨hb, by simp [curlSubmissions, hb]⟩
  · intro heq
    refine ⟨by simp [buildPairwise, heq], ?_, fun i => zipGetEq ips ports i⟩
    rw [List.length_zip, heq, Nat.min_self]

/-- C6 witness: the confirmed statement at concrete lists — three hosts
with two ports are rejected, and two hosts with two ports pair index by
index. -/
theorem c6_witness :
    buildPairwise ["a", "b", "c"] ["80", "443"] = Except.error ConfigError.lengthMismatch ∧
    curlSubmissions ["a", "b", "c"] ["80", "443"] = Except.error ConfigError.lengthMismatch ∧
    buildPairwise ["a", "b"] ["80", "443"] = Except.ok [("a", "80"), ("b", "443")] ∧
    (["a", "b"].zip ["80", "443"])[0]? = some ("a", "80") :=
  ⟨((c6_confirmed ["a", "b", "c"] ["80", "443"]).1 (by decide)).1,
   ((c6_confirmed ["a", "b", "c"] ["80", "443"]).1 (by decide)).2,
   ((c6_confirmed ["a", "b"] ["80", "443"]).2 rfl).1,
   ((c6_confirmed ["a", "b"] ["80", "443"]).2 rfl).2.2 0⟩

/-- C7: the claim is false on the source.  With a configured timeout of
3 seconds, the banner read runs under the hard-coded 1.0-second timeout
set at pythonAutoSock.py line 70 — not the configured value — and no TLS
handshake runs under any timeout at all: `ssl_sock.settimeout(timeout)`
and `do_handshake()` at lines 79-80 are dead code behind the failing
`ssl.wrap_socket` call. -/
theorem c7_counterexample :
    connectTsUsed (scanEvents "127.0.0.1" 443 3 envAllOk) = [3] ∧
    recvTsUsed (scanEvents "127.0.0.1" 443 3 envAllOk) = [1] ∧
    handshakeTsUsed (scanEvents "127.0.0.1" 443 3 envAllOk) = [] ∧
    (1 : Rat) ≠ 3 := by
  decide

/-- C7 (amended): in every run that reaches the banner section, the TCP
connect uses the configured per-probe timeout, the banner read always
uses the fixed 1.0-second timeout regardless of the configured value,
and no TLS handshake is ever performed — so no timeout governs a
handshake. -/
theorem c7_amended (ip : String) (port : Nat) (t : Rat) (env : ScanEnv)
    (lp pp : String × Nat) (ht : ¬ t < 0) (hc : env.connect = none)
    (hs : env.sockname = .ok lp) (hp : env.peername = .ok pp)
    (hr : env.rdnsOut.isOtherErr = false) :
    connectTsUsed (scanEvents ip port t env) = [t] ∧
    recvTsUsed (scanEvents ip port t env) = [1] ∧
    handshakeTsUsed (scanEvents ip port t env) = [] := by
  rw [scanEvents_connected ip port t env lp pp ht hc hs hp hr]
  refine ⟨?_, ?_, ?_⟩ <;> rfl

/-- C7 witness: the amended statement at a concrete connected run with a
configured timeout of 4 seconds. -/
theorem c7_witness :
    connectTsUsed (scanEvents "10.1.2.3" 443 4 envAllOk) = [4] ∧
    recvTsUsed (scanEvents "10.1.2.3" 443 4 envAllOk) = [1] ∧
    handshakeTsUsed (scanEvents "10.1.2.3" 443 4 envAllOk) = [] :=
  c7_amended "10.1.2.3" 443 4 envAllOk ("192.168.0.2", 54321) ("93.184.216.34", 443)
    (by decide) rfl rfl rfl rfl

/-- C8: confirmed.  In a connected run the TLS fields are populated only
when the handshake completes: a failed TLS block leaves all three TLS
fields absent while `status` stays true (the failure is swallowed by the
handler at pythonAutoSock.py lines 88-90).  On the real program that
`fail` branch is the only reachable one — the block dies with
`TypeError` at `ssl.wrap_socket` (see `TlsOutcome`) — so TLS info is in
fact never populated and TLS failure is never surfaced; the `okTls`
branch additionally proves that even the block's written completion path
would populate `tls_version` and `tls_cipher` together, with
`cert_subject` independently best-effort.  (The hypothesis that a
completed handshake reports a cipher — `some c` — matches the `ssl`
library's documented behaviour after `do_handshake` returns.) -/
theorem c8_confirmed (ip : String) (port : Nat) (t : Rat) (env : ScanEnv)
    (lp pp : String × Nat) (ht : ¬ t < 0) (hc : env.connect = none)
    (hs : env.sockname = .ok lp) (hp : env.peername = .ok pp)
    (hr : env.rdnsOut.isOtherErr = false) :
    (scanResultD ip port t env).status = true ∧
    (env.tlsOut = TlsOutcome.fail →
      (scanResultD ip port t env).tls_version = "" ∧
      (scanResultD ip port t env).tls_cipher = "" ∧
      (scanResultD ip port t env).cert_subject = "") ∧
    (∀ (v c : String) (cs : Except Unit String),
      env.tlsOut = TlsOutcome.okTls v (some c) cs →
      (scanResultD ip port t env).tls_version = v ∧
      (scanResultD ip port t env).tls_cipher = c ∧
      (cs = Except.error () → (scanResultD ip port t env).cert_subject = "")) := by
  have h := scan_port_connected ip port t env lp pp ht hc hs hp hr
  refine ⟨?_, ?_, ?_⟩
  · simp [scanResultD, h]
  · intro hf
    simp [scanResultD, h, hf, tlsVerField, tlsCipherField, certField]
  · intro v c cs hok
    refine ⟨?_, ?_, ?_⟩
    · simp [scanResultD, h, hok, tlsVerField]
    · simp [scanResultD, h, hok, tlsCipherField]
    · intro hcs
      simp [scanResultD, h, hok, hcs, certField]

/-- C8 witness: both branches of the confirmed statement at concrete
runs — a failed handshake leaves the TLS fields absent with the probe
still reachable, and a completed handshake populates version and cipher
together. -/
theorem c8_witness :
    ((scanResultD "10.0.0.3" 443 3 envHarvestFail).status = true ∧
     (scanResultD "10.0.0.3" 443 3 envHarvestFail).tls_version = "" ∧
     (scanResultD "10.0.0.3" 443 3 envHarvestFail).tls_cipher = "" ∧
     (scanResultD "10.0.0.3" 443 3 envHarvestFail).cert_subject = "") ∧
    ((scanResultD "10.0.0.4" 443 3 envAllOk).status = true ∧
     (scanResultD "10.0.0.4" 443 3 envAllOk).tls_version = "TLSv1.3" ∧
     (scanResultD "10.0.0.4" 443 3 envAllOk).tls_cipher = "TLS_AES_256_GCM_SHA384") :=
  ⟨⟨(c8_confirmed "10.0.0.3" 443 3 envHarvestFail ("192.168.0.2", 54321) ("93.184.216.34", 443)
      (by decide) rfl rfl rfl rfl).1,
    (c8_confirmed "10.0.0.3" 443 3 envHarvestFail ("192.168.0.2", 54321) ("93.184.216.34", 443)
      (by decide) rfl rfl rfl rfl).2.1 rfl⟩,
   ⟨(c8_confirmed "10.0.0.4" 443 3 envAllOk ("192.168.0.2", 54321) ("93.184.216.34", 443)
      (by decide) rfl rfl rfl rfl).1,
    ((c8_confirmed "10.0.0.4" 443 3 envAllOk ("192.168.0.2", 54321) ("93.184.216.34", 443)
      (by decide) rfl rfl rfl rfl).2.2 "TLSv1.3" "TLS_AES_256_GCM_SHA384"
      (Except.ok "example.com") rfl).1,
    ((c8_confirmed "10.0.0.4" 443 3 envAllOk ("192.168.0.2", 54321) ("93.184.216.34", 443)
      (by decide) rfl rfl rfl rfl).2.2 "TLSv1.3" "TLS_AES_256_GCM_SHA384"
      (Except.ok "example.com") rfl).2.1⟩⟩

/-- C9: the claim is false on the source.  A host-unreachable connect
failure (`OSError` `EHOSTUNREACH`) is not given a distinct Unreachable
classification: it falls into the same generic handler as every other
non-timeout, non-refused exception (pythonAutoSock.py lines 97-99),
producing the same "Error: ..." shape as an arbitrary other error — the
code classifies connect failures into three categories, not four. -/
theorem c9_counterexample :
    scan_port "10.255.255.1" 80 3 envUnreach =
      Except.ok { (initResult "10.255.255.1" 80) with
        status := false, banner := "Error: [Errno 113] No route to host" } ∧
    connMsg (PyExn.oserror "[Errno 113] No route to host") =
      "Error: " ++ "[Errno 113] No route to host" ∧
    connMsg (PyExn.oserror "arbitrary other failure") =
      "Error: " ++ "arbitrary other failure" := by
  decide

/-- C9 (amended): a failed connection attempt returns immediately with
`reachable` false and no harvested fields, and is classified into
exactly one of three categories by the banner text: "Connection timed
out" for a timeout, "Connection refused" for a refusal, and the generic
"Error: ..." form for everything else — including unreachable
networks/hosts, which are not distinguished from other errors. -/
theorem c9_amended (ip : String) (port : Nat) (t : Rat) (env : ScanEnv) (e : PyExn)
    (ht : ¬ t < 0) (hc : env.connect = some e) :
    scan_port ip port t env =
      Except.ok { (initResult ip port) with status := false, banner := connMsg e } ∧
    (e = PyExn.timeoutExn → connMsg e = "Connection timed out") ∧
    (e = PyExn.refused → connMsg e = "Connection refused") ∧
    (∀ m, e = PyExn.oserror m → connMsg e = "Error: " ++ m) ∧
    (∀ m, e = PyExn.valueError m → connMsg e = "Error: " ++ m) := by
  obtain ⟨c0, lat, sn, pn, sv, rd, so, rc, tl⟩ := env
  simp only at hc
  subst hc
  unfold scan_port scanRun
  rw [if_neg ht]
  refine ⟨rfl, ?_, ?_, ?_, ?_⟩
  · intro h; rw [h]; rfl
  · intro h; rw [h]; rfl
  · intro m h; rw [h]; rfl
  · intro m h; rw [h]; rfl

/-- C9 witness: the amended statement at a concrete unreachable-host
failure. -/
theorem c9_witness :
    scan_port "10.255.255.9" 80 3 envUnreach =
      Except.ok { (initResult "10.255.255.9" 80) with
        status := false, banner := connMsg (PyExn.oserror "[Errno 113] No route to host") } ∧
    connMsg (PyExn.oserror "[Errno 113] No route to host") =
      "Error: " ++ "[Errno 113] No route to host" :=
  ⟨(c9_amended "10.255.255.9" 80 3 envUnreach (PyExn.oserror "[Errno 113] No route to host")
      (by decide) rfl).1,
   (c9_amended "10.255.255.9" 80 3 envUnreach (PyExn.oserror "[Errno 113] No route to host")
      (by decide) rfl).2.2.2.1 "[Errno 113] No route to host" rfl⟩

/-- C10: the claim is false on the source.  `scan_port` does not return
normally for every input: `sock.settimeout(timeout)` at
pythonAutoSock.py line 41 runs before the `try` block and raises
`ValueError` for a negative timeout, so the exception propagates to the
caller. -/
theorem c10_counterexample :
    scan_port "203.0.113.5" 80 (-1) envAllOk =
      Except.error (PyExn.valueError "Timeout value out of range") := by
  decide

/-- C10 (amended): for every non-negative timeout, `scan_port` returns
normally whether the connection succeeded, failed or timed out, and the
returned dictionary — which always carries the same fixed set of
seventeen fields, by construction of `ScanResult` — has its `ip` and
`port` fields equal to the inputs. -/
theorem c10_amended (ip : String) (port : Nat) (t : Rat) (env : ScanEnv)
    (ht : ¬ t < 0) :
    isOkE (scan_port ip port t env) = true ∧
    (scanResultD ip port t env).ip = ip ∧
    (scanResultD ip port t env).port = port := by
  obtain ⟨h1, h2, h3⟩ := scan_port_ok ip port t env ht
  refine ⟨?_, h2, h3⟩
  rw [h1]
  simp [isOkE]

/-- C10 witness: the amended statement at a concrete run. -/
theorem c10_witness :
    isOkE (scan_port "203.0.113.5" 80 3 envAllOk) = true ∧
    (scanResultD "203.0.113.5" 80 3 envAllOk).ip = "203.0.113.5" ∧
    (scanResultD "203.0.113.5" 80 3 envAllOk).port = 80 :=
  c10_amended "203.0.113.5" 80 3 envAllOk (by decide)
